import Mathlib

/-!
Shallow embedding of the terminus expression-language core
(src/service/term_parser.py and src/service/term_interpreter.py):
tokenizer, shunting-yard converter, tree builder and evaluator,
together with theorems settling the frozen claims about them.

Modelling conventions:
* Python `float` is modelled by `Rat`; every numeric literal appearing in a
  theorem below is exactly representable as a double, so no rounding issue
  is ever exercised.
* Python exceptions are modelled by `Except Err`; an uncaught exception of
  the source becomes an `Err` value.
* Python dictionaries are modelled by association lists (unique keys) or by
  lookup functions `String -> Option _`.
* Character classes (`\s`, `\w`, string lowercase) are modelled on their
  ASCII fragment; every string a theorem touches is ASCII.
-/

namespace Terminus

/-- The apostrophe character (used to build source strings that contain
single quotes). -/
def sq : Char := Char.ofNat 39

/-- ASCII fragment of the regex class `\s` and of the whitespace set used by
Python `str.strip`. -/
def isSpaceCh (c : Char) : Bool :=
  c = ' ' || c = Char.ofNat 9 || c = Char.ofNat 10 || c = Char.ofNat 11 ||
  c = Char.ofNat 12 || c = Char.ofNat 13

/-- ASCII fragment of the regex class `\w`. -/
def isWordCh (c : Char) : Bool :=
  (c ≥ 'a' && c ≤ 'z') || (c ≥ 'A' && c ≤ 'Z') || (c ≥ '0' && c ≤ '9') || c = '_'

def isDigitCh (c : Char) : Bool := c ≥ '0' && c ≤ '9'

def isAlphaCh (c : Char) : Bool :=
  (c ≥ 'a' && c ≤ 'z') || (c ≥ 'A' && c ≤ 'Z')

/-- ASCII `str.lower`. -/
def lowerAscii (s : String) : String :=
  String.mk (s.toList.map fun c =>
    if c ≥ 'A' && c ≤ 'Z' then Char.ofNat (c.toNat + 32) else c)

/-- Lookup in a Python dict modelled as an association list
(`d[k]` returns `none` for a KeyError). -/
def dictGet {α : Type} (d : List (String × α)) (k : String) : Option α :=
  (d.find? (fun p => p.1 == k)).map (fun p => p.2)

/-! ## Operator tables (term_parser.py lines 13-101) -/

/-- `unary_operators` of term_parser.py (line 14). -/
def unary_operators : List String :=
  ["not", "neg", "floor", "ceil", "abs", "int", "float", "bool"]

/-- `binary_operators` of term_parser.py (lines 15-37). -/
def binary_operators : List String :=
  ["+", "-", "*", "/", "//", "**", "mod", "%", "<", "<=", ">", ">=",
   "==", "!=", "and", "or", "|", "&", "xor", "<<", ">>"]

/-- `precedence` of term_parser.py (lines 39-70). -/
def precedence : List (String × Nat) :=
  [("or", 1), ("and", 2), ("|", 3), ("xor", 3), ("&", 3), ("==", 4), ("!=", 4),
   ("<", 5), (">", 5), ("<=", 5), (">=", 5), ("+", 6), ("-", 6), ("*", 7),
   ("/", 7), ("//", 7), ("mod", 7), ("%", 7), ("<<", 8), (">>", 8), ("**", 9),
   ("not", 10), ("neg", 6), ("floor", 10), ("ceil", 10), ("abs", 10),
   ("int", 10), ("float", 10), ("bool", 10), ("function", 20)]

/-- `associativity` of term_parser.py (lines 72-101).  Note that `neg` is
absent, exactly as in the source. -/
def associativity : List (String × String) :=
  [("or", "L"), ("and", "L"), ("|", "L"), ("xor", "L"), ("&", "L"),
   ("==", "L"), ("!=", "L"), ("<", "L"), (">", "L"), ("<=", "L"), (">=", "L"),
   ("+", "L"), ("-", "L"), ("*", "L"), ("/", "L"), ("//", "L"), ("mod", "L"),
   ("%", "L"), ("<<", "L"), (">>", "L"), ("**", "R"), ("not", "R"),
   ("floor", "R"), ("ceil", "R"), ("abs", "R"), ("int", "R"), ("float", "R"),
   ("bool", "R")]

/-! ## Token classifier predicates (term_parser.py lines 139-167) -/

/-- `is_number` (line 140): full match of `^-?\d+(\.\d+)?$`. -/
def is_number (t : String) : Bool :=
  let cs := t.toList
  let body := if cs.headD ' ' = '-' then cs.tail else cs
  let intPart := body.takeWhile isDigitCh
  let rest := body.drop intPart.length
  intPart.length > 0 &&
    (rest.isEmpty ||
      (rest.headD ' ' = '.' && (rest.tail).length > 0 && (rest.tail).all isDigitCh))

/-- `is_identifier` (lines 144-146): full match of `^[a-zA-Z_][\w\.]*$` and
not starting with a dollar sign (the second conjunct is subsumed by the
first, as in the source). -/
def is_identifier (t : String) : Bool :=
  let cs := t.toList
  match cs with
  | [] => false
  | c :: rest =>
    (isAlphaCh c || c = '_') && rest.all (fun d => isWordCh d || d = '.') &&
      !(c = '$')

/-- `is_function` (lines 149-151): full match of `^\$[a-zA-Z_][\w\.]*$`. -/
def is_function (t : String) : Bool :=
  let cs := t.toList
  match cs with
  | '$' :: c :: rest =>
    (isAlphaCh c || c = '_') && rest.all (fun d => isWordCh d || d = '.')
  | _ => false

/-- `is_binary_operator` (lines 162-163). -/
def is_binary_operator (t : String) : Bool := binary_operators.contains t

/-- `is_unary_operator` (lines 166-167). -/
def is_unary_operator (t : String) : Bool := unary_operators.contains t

/-- `is_operator` on a plain string token (lines 154-159, string branch). -/
def is_operator (t : String) : Bool := is_binary_operator t || is_unary_operator t

/-! ## Tokenizer (term_parser.py lines 4-7 and 117-119)

`tokenize` is `token_regex.split(expression)` filtered by `token.strip()`.
`re.split` emits, alternately, the unmatched gap before each match and the
text captured by the single group of the pattern; the pattern is
`\s*( ALT )\s*` with 25 alternatives tried left to right.  The functions
below implement each alternative; greediness is resolved exactly where the
regex engine would resolve it (commented at each spot where backtracking
could in principle occur). -/

def isWordOpt : Option Char → Bool
  | none => false
  | some c => isWordCh c

/-- Match an exact literal alternative. -/
def matchLit (pat : String) (cs : List Char) : Option (List Char × List Char) :=
  let p := pat.toList
  if cs.take p.length = p then some (p, cs.drop p.length) else none

/-- Body of a quoted literal after the opening quote: `(?:\\.|[^q\\])*q`.
Returns the consumed characters (closing quote included) and the rest.
The star is deterministic here: a backslash can only be consumed by `\\.`
(and `.` refuses a newline), any other non-quote character only by the
class, so no backtracking point exists. -/
def quotedBody (q : Char) : List Char → Option (List Char × List Char)
  | [] => none
  | c :: rest =>
    if c = q then some ([q], rest)
    else if c = '\\' then
      match rest with
      | [] => none
      | d :: rest2 =>
        if d = Char.ofNat 10 then none
        else (quotedBody q rest2).map (fun p => (c :: d :: p.1, p.2))
    else (quotedBody q rest).map (fun p => (c :: p.1, p.2))

/-- A full quoted alternative: `prefixChars` then `quotedBody`. -/
def matchQuoted (prefixChars : List Char) (q : Char) (cs : List Char) :
    Option (List Char × List Char) :=
  if cs.take prefixChars.length = prefixChars then
    (quotedBody q (cs.drop prefixChars.length)).map
      (fun p => (prefixChars ++ p.1, p.2))
  else none

/-- `-\d*\.\d+` (greedy `\d*` is exact: shortening it leaves a digit where
the dot is required). -/
def matchNegFrac (cs : List Char) : Option (List Char × List Char) :=
  match cs with
  | '-' :: rest =>
    let ds := rest.takeWhile isDigitCh
    let r1 := rest.drop ds.length
    match r1 with
    | '.' :: r2 =>
      let fs := r2.takeWhile isDigitCh
      if fs.length > 0 then
        some ('-' :: ds ++ '.' :: fs, r2.drop fs.length)
      else none
    | _ => none
  | _ => none

/-- `-\.\d+`. -/
def matchNegDotFrac (cs : List Char) : Option (List Char × List Char) :=
  match cs with
  | '-' :: '.' :: r2 =>
    let fs := r2.takeWhile isDigitCh
    if fs.length > 0 then some ('-' :: '.' :: fs, r2.drop fs.length) else none
  | _ => none

/-- `-\d+\b` (greedy digits are exact: between two digits there is never a
word boundary, so the boundary can only sit after the full digit run). -/
def matchNegInt (cs : List Char) : Option (List Char × List Char) :=
  match cs with
  | '-' :: rest =>
    let ds := rest.takeWhile isDigitCh
    let r1 := rest.drop ds.length
    if ds.length > 0 && !(isWordOpt r1.head?) then some ('-' :: ds, r1) else none
  | _ => none

/-- `\$[\w\.]+`. -/
def matchDollar (cs : List Char) : Option (List Char × List Char) :=
  match cs with
  | '$' :: rest =>
    let ws := rest.takeWhile (fun c => isWordCh c || c = '.')
    if ws.length > 0 then some ('$' :: ws, rest.drop ws.length) else none
  | _ => none

/-- Largest `k ≥ 1` such that a word boundary sits after the first `k`
characters of `run` (the character following `run` in the subject being
`after`).  This is the backtracking of the trailing `\b` of `\b[\w\.]+\b`. -/
def bestCut (run : List Char) (after : Option Char) : Option Nat :=
  (List.range run.length).reverse.findSome? fun i =>
    let k := i + 1
    let lastC := run.getD i ' '
    let nextC : Option Char :=
      if k < run.length then some (run.getD k ' ') else after
    if isWordCh lastC ≠ isWordOpt nextC then some k else none

/-- `\b[\w\.]+\b` (needs the character preceding the match position for the
leading boundary). -/
def matchWordRun (prev : Option Char) (cs : List Char) :
    Option (List Char × List Char) :=
  let run := cs.takeWhile (fun c => isWordCh c || c = '.')
  if run.length = 0 then none
  else if isWordOpt prev = isWordCh (run.headD ' ') then none
  else
    match bestCut run (cs.drop run.length).head? with
    | some k => some (run.take k, cs.drop k)
    | none => none

/-- `\d+\.\d+`. -/
def matchDecimal (cs : List Char) : Option (List Char × List Char) :=
  let ds := cs.takeWhile isDigitCh
  let r1 := cs.drop ds.length
  if ds.length > 0 then
    match r1 with
    | '.' :: r2 =>
      let fs := r2.takeWhile isDigitCh
      if fs.length > 0 then some (ds ++ '.' :: fs, r2.drop fs.length) else none
    | _ => none
  else none

/-- `\.\d+`. -/
def matchDotFrac (cs : List Char) : Option (List Char × List Char) :=
  match cs with
  | '.' :: r2 =>
    let fs := r2.takeWhile isDigitCh
    if fs.length > 0 then some ('.' :: fs, r2.drop fs.length) else none
  | _ => none

/-- `\d+\b` (same exact-greediness argument as `matchNegInt`). -/
def matchInt (cs : List Char) : Option (List Char × List Char) :=
  let ds := cs.takeWhile isDigitCh
  let r1 := cs.drop ds.length
  if ds.length > 0 && !(isWordOpt r1.head?) then some (ds, r1) else none

/-- `[+\-*/%(),<>!=]`. -/
def matchPunct (cs : List Char) : Option (List Char × List Char) :=
  match cs with
  | c :: rest =>
    if ['+', '-', '*', '/', '%', '(', ')', ',', '<', '>', '!', '='].contains c
    then some ([c], rest) else none
  | [] => none

/-- The 25 alternatives of the token pattern, tried in source order (a
regex alternation takes the first alternative that matches at the current
position). -/
def altMatchers (prev : Option Char) :
    List (List Char → Option (List Char × List Char)) :=
  [matchLit "=>", matchLit "//", matchLit "**", matchLit "==", matchLit "!=",
   matchLit "<=", matchLit ">=", matchLit "<<", matchLit ">>",
   matchLit "||", matchLit "|", matchLit "&", matchLit "^",
   matchQuoted ['d', '"'] '"', matchQuoted ['d', sq] sq,
   matchQuoted ['"'] '"', matchQuoted [sq] sq,
   matchNegFrac, matchNegDotFrac, matchNegInt,
   matchDollar, matchWordRun prev,
   matchDecimal, matchDotFrac, matchInt, matchPunct]

def matchAlt (prev : Option Char) (cs : List Char) :
    Option (List Char × List Char) :=
  (altMatchers prev).findSome? (fun f => f cs)

/-- Leftmost match of `\s*(ALT)\s*` in `cs`: returns the gap before the
match, the captured token, the character just before the next search
position, and the rest.  `\s*` is taken maximal on both sides: no
alternative can start with a whitespace character, so backtracking the
leading `\s*` never succeeds, and nothing follows the trailing `\s*`. -/
def findFrom (prev : Option Char) (gapAcc : List Char) :
    List Char → Option (List Char × List Char × Option Char × List Char)
  | [] => none
  | c :: rest =>
    let ws := (c :: rest).takeWhile isSpaceCh
    let afterWs := (c :: rest).drop ws.length
    let prevAtAlt := if ws.length = 0 then prev else ws.getLast?
    match matchAlt prevAtAlt afterWs with
    | some (tok, rest1) =>
      let trail := rest1.takeWhile isSpaceCh
      let prevNext := if trail.length = 0 then tok.getLast? else trail.getLast?
      some (gapAcc.reverse, tok, prevNext, rest1.drop trail.length)
    | none => findFrom (some c) (c :: gapAcc) rest

/-- One `re.split` pass: the list of pieces (gaps and captured tokens,
interleaved).  `fuel` dominates the number of matches; each match consumes
at least one character, so `cs.length + 1` always suffices. -/
def splitPieces (fuel : Nat) (prev : Option Char) (cs : List Char)
    (acc : List String) : List String :=
  match fuel with
  | 0 => acc ++ [String.mk cs]
  | fuel + 1 =>
    match findFrom prev [] cs with
    | none => acc ++ [String.mk cs]
    | some (gap, tok, prevNext, rest) =>
      splitPieces fuel prevNext rest (acc ++ [String.mk gap, String.mk tok])

/-- `tokenize` (lines 117-119): split, then keep the pieces whose `strip()`
is non-empty. -/
def tokenize (expression : String) : List String :=
  let cs := expression.toList
  (splitPieces (cs.length + 1) none cs []).filter
    (fun t => t.toList.any (fun c => !(isSpaceCh c)))

/-! ## Errors

One shared exception model for parser and interpreter; an `Err` value is an
uncaught Python exception.  `modelGap` marks host behaviour deliberately
left outside the model (never reached by any theorem below). -/

inductive Err
  | valueError (msg : String)
  | typeError (msg : String)
  | nameError (name : String)
  | keyError (name : String)
  | indexError
  | zeroDivisionError
  | unicodeDecodeError (msg : String)
  | overflowError
  | modelGap (msg : String)
deriving DecidableEq, Repr

/-! ## String unescaping (term_parser.py lines 122-125)

`unescape_string_literal` is `s.encode().decode("unicode_escape")`,
modelled on ASCII input: the standard escapes
`\n \t \r \b \f \v \a \\ \q \0-7(octal, up to three digits, no wrap)
\xhh \uhhhh \Uhhhhhhhh` and backslash-newline line continuation; an
unrecognized escape keeps the backslash, as in Python; a truncated
`\x`/`\u`/`\U` escape, a trailing lone backslash, and a `\U` value beyond
the Unicode range raise (UnicodeDecodeError, a ValueError subclass).  The
named escape `\N{...}` is outside the model (`Err.modelGap`: no theorem
quantifies over it), and a `\u`/`\U` surrogate code point, which Python
admits into a str, falls to the null character since Lean has no surrogate
scalar — both ends of that mapping fail the ISO date pattern alike. -/

def hexVal (c : Char) : Option Nat :=
  if isDigitCh c then some (c.toNat - 48)
  else if c ≥ 'a' && c ≤ 'f' then some (c.toNat - 87)
  else if c ≥ 'A' && c ≤ 'F' then some (c.toNat - 55)
  else none

def isOctalCh (c : Char) : Bool := c ≥ '0' && c ≤ '7'

def octalOfChars (ds : List Char) : Nat :=
  ds.foldl (fun acc c => acc * 8 + (c.toNat - 48)) 0

def hexOfChars (ds : List Char) : Option Nat :=
  ds.foldlM (fun acc c => (hexVal c).map (fun v => acc * 16 + v)) 0

def simpleEsc (c : Char) : Option Char :=
  if c = 'n' then some (Char.ofNat 10)
  else if c = 't' then some (Char.ofNat 9)
  else if c = 'r' then some (Char.ofNat 13)
  else if c = 'b' then some (Char.ofNat 8)
  else if c = 'f' then some (Char.ofNat 12)
  else if c = 'v' then some (Char.ofNat 11)
  else if c = 'a' then some (Char.ofNat 7)
  else if c = '\\' then some '\\'
  else if c = sq then some sq
  else if c = '"' then some '"'
  else none

def truncXMsg : String := "truncated \\xXX escape"

def truncUMsg : String := "truncated \\uXXXX escape"

def truncU8Msg : String := "truncated \\UXXXXXXXX escape"

def unescapeAux : Nat → List Char → Except Err (List Char)
  | 0, cs => .ok cs
  | _, [] => .ok []
  | fuel + 1, '\\' :: rest =>
    match rest with
    | [] => .error (.unicodeDecodeError "\\ at end of string")
    | c :: rest2 =>
      match simpleEsc c with
      | some e => (unescapeAux fuel rest2).map (e :: ·)
      | none =>
        if c = Char.ofNat 10 then unescapeAux fuel rest2
        else if isOctalCh c then
          match rest2 with
          | d2 :: rest3 =>
            if isOctalCh d2 then
              match rest3 with
              | d3 :: rest4 =>
                if isOctalCh d3 then
                  (unescapeAux fuel rest4).map (Char.ofNat (octalOfChars [c, d2, d3]) :: ·)
                else (unescapeAux fuel rest3).map (Char.ofNat (octalOfChars [c, d2]) :: ·)
              | [] => .ok [Char.ofNat (octalOfChars [c, d2])]
            else (unescapeAux fuel rest2).map (Char.ofNat (octalOfChars [c]) :: ·)
          | [] => .ok [Char.ofNat (octalOfChars [c])]
        else if c = 'x' then
          match rest2 with
          | h1 :: h2 :: rest3 =>
            (match hexOfChars [h1, h2] with
             | some v => (unescapeAux fuel rest3).map (Char.ofNat v :: ·)
             | none => .error (.unicodeDecodeError truncXMsg))
          | _ => .error (.unicodeDecodeError truncXMsg)
        else if c = 'u' then
          match rest2 with
          | h1 :: h2 :: h3 :: h4 :: rest3 =>
            (match hexOfChars [h1, h2, h3, h4] with
             | some v => (unescapeAux fuel rest3).map (Char.ofNat v :: ·)
             | none => .error (.unicodeDecodeError truncUMsg))
          | _ => .error (.unicodeDecodeError truncUMsg)
        else if c = 'U' then
          match rest2 with
          | h1 :: h2 :: h3 :: h4 :: h5 :: h6 :: h7 :: h8 :: rest3 =>
            (match hexOfChars [h1, h2, h3, h4, h5, h6, h7, h8] with
             | some v =>
               if v ≤ 0x10FFFF then
                 (unescapeAux fuel rest3).map (Char.ofNat v :: ·)
               else .error (.unicodeDecodeError "illegal Unicode character")
             | none => .error (.unicodeDecodeError truncU8Msg))
          | _ => .error (.unicodeDecodeError truncU8Msg)
        else if c = 'N' then
          .error (.modelGap "named unicode escapes are not modelled")
        else (unescapeAux fuel rest2).map ('\\' :: c :: ·)
  | fuel + 1, c :: rest => (unescapeAux fuel rest).map (c :: ·)

/-- `unescape_string_literal` (lines 122-125): the decoded string, or the
uncaught decoding error. -/
def unescape_string_literal (s : String) : Except Err String :=
  (unescapeAux s.toList.length s.toList).map String.mk

/-! ## ISO date pattern and parsing (term_parser.py lines 10, 128-136)

`iso_date_regex` is
`^\d{4}-\d{2}-\d{2}(T\d{2}:\d{2}:\d{2}(.\d+)?(Z|(\+|-)\d{2}:\d{2})?)?$`.
Note that the `.` before the fraction digits is an unescaped regex dot (any
character except newline), and that Python `$` also matches just before a
single trailing newline. -/

/-- Take exactly `n` digits. -/
def digitsN (n : Nat) (cs : List Char) : Option (Nat × List Char) :=
  let ds := cs.take n
  if ds.length = n && ds.all isDigitCh then
    some (ds.foldl (fun acc c => acc * 10 + (c.toNat - 48)) 0, cs.drop n)
  else none

/-- Position where `$` may match: end of subject or just before a single
trailing newline. -/
def isEndPos (cs : List Char) : Bool :=
  cs.isEmpty || cs = [Char.ofNat 10]

/-- `(Z|(\+|-)\d{2}:\d{2})?$`. -/
def matchTzEnd (cs : List Char) : Bool :=
  isEndPos cs ||
  (match cs with
   | 'Z' :: rest => isEndPos rest
   | c :: rest =>
     (c = '+' || c = '-') &&
       (match digitsN 2 rest with
        | some (_, r1) =>
          (match r1 with
           | ':' :: r2 =>
             (match digitsN 2 r2 with
              | some (_, r3) => isEndPos r3
              | none => false)
           | _ => false)
        | none => false)
   | [] => false)

/-- `(.\d+)?` followed by `matchTzEnd`.  The greedy `\d+` is exact: taking
fewer digits leaves a digit where `Z`, `+`, `-`, `$` or the trailing
newline is required. -/
def matchFracTz (cs : List Char) : Bool :=
  matchTzEnd cs ||
  (match cs with
   | c :: rest =>
     c ≠ Char.ofNat 10 &&
       (let ds := rest.takeWhile isDigitCh
        ds.length ≥ 1 && matchTzEnd (rest.drop ds.length))
   | [] => false)

/-- Full match of `iso_date_regex` against `cs`. -/
def isoRegexMatch (cs : List Char) : Bool :=
  match digitsN 4 cs with
  | none => false
  | some (_, r1) =>
    match r1 with
    | '-' :: r2 =>
      (match digitsN 2 r2 with
       | none => false
       | some (_, r3) =>
         match r3 with
         | '-' :: r4 =>
           (match digitsN 2 r4 with
            | none => false
            | some (_, r5) =>
              isEndPos r5 ||
              (match r5 with
               | 'T' :: r6 =>
                 (match digitsN 2 r6 with
                  | none => false
                  | some (_, r7) =>
                    match r7 with
                    | ':' :: r8 =>
                      (match digitsN 2 r8 with
                       | none => false
                       | some (_, r9) =>
                         match r9 with
                         | ':' :: r10 =>
                           (match digitsN 2 r10 with
                            | none => false
                            | some (_, r11) => matchFracTz r11)
                         | _ => false)
                    | _ => false)
               | _ => false))
         | _ => false)
    | _ => false

/-- `is_iso_date_string` (lines 128-129): `iso_date_regex.match` is not
`None`; the pattern is anchored on both sides, so this is the full match
above. -/
def is_iso_date_string (value : String) : Bool := isoRegexMatch value.toList

/-- A `datetime.datetime` value: calendar fields plus an optional fixed
UTC offset in minutes. -/
structure PyDateTime where
  year : Nat
  month : Nat
  day : Nat
  hour : Nat
  minute : Nat
  second : Nat
  microsecond : Nat
  tzMin : Option Int
deriving DecidableEq, Repr

def isLeapYear (y : Nat) : Bool := y % 4 = 0 && (y % 100 ≠ 0 || y % 400 = 0)

def daysInMonth (y m : Nat) : Nat :=
  if m = 2 then (if isLeapYear y then 29 else 28)
  else if [4, 6, 9, 11].contains m then 30
  else 31

/-- Modelled from the Python standard library: `datetime.fromisoformat`
(as wrapped by `parse_iso_date_string`), restricted to the shapes admitted
by `iso_date_regex`: `YYYY-MM-DD[THH:MM:SS[.ffffff][Z|+HH:MM|-HH:MM]]`
with `.` or `,` as fraction separator; returns `none` (a `ValueError` in
Python) when the shape or a field range (year 1-9999, month 1-12, day
within the month, hour < 24, minute < 60, second < 60, |offset| < 24h) is
invalid. -/
def fromisoformat (s : String) : Option PyDateTime := do
  let cs := s.toList
  let (y, r1) ← digitsN 4 cs
  let r2 ← match r1 with | '-' :: r2 => some r2 | _ => none
  let (mo, r3) ← digitsN 2 r2
  let r4 ← match r3 with | '-' :: r4 => some r4 | _ => none
  let (d, r5) ← digitsN 2 r4
  let (h, mi, sec, usec, tz) ←
    match r5 with
    | [] => some (0, 0, 0, 0, (none : Option Int))
    | 'T' :: r6 => do
      let (h, r7) ← digitsN 2 r6
      let r8 ← match r7 with | ':' :: r8 => some r8 | _ => none
      let (mi, r9) ← digitsN 2 r8
      let r10 ← match r9 with | ':' :: r10 => some r10 | _ => none
      let (sec, r11) ← digitsN 2 r10
      let (usec, r12) ←
        match r11 with
        | c :: rest =>
          if c = '.' || c = ',' then
            let ds := rest.takeWhile isDigitCh
            if ds.length ≥ 1 then
              let six := (ds.take 6) ++ List.replicate (6 - ds.length) '0'
              some (six.foldl (fun acc c => acc * 10 + (c.toNat - 48)) 0,
                    rest.drop ds.length)
            else none
          else some (0, c :: rest)
        | [] => some (0, ([] : List Char))
      let tz ←
        match r12 with
        | [] => some (none : Option Int)
        | 'Z' :: r13 => if r13.isEmpty then some (some (0 : Int)) else none
        | c :: r13 =>
          if c = '+' || c = '-' then do
            let (oh, r14) ← digitsN 2 r13
            let r15 ← match r14 with | ':' :: r15 => some r15 | _ => none
            let (om, r16) ← digitsN 2 r15
            if r16.isEmpty then
              let mins : Int := (oh * 60 + om : Nat)
              some (some (if c = '-' then -mins else mins))
            else none
          else none
      some (h, mi, sec, usec, tz)
    | _ => none
  if 1 ≤ y && y ≤ 9999 && 1 ≤ mo && mo ≤ 12 && 1 ≤ d && d ≤ daysInMonth y mo &&
     h ≤ 23 && mi ≤ 59 && sec ≤ 59 &&
     (match tz with | none => true | some o => o.natAbs < 1440) then
    some ⟨y, mo, d, h, mi, sec, usec, tz⟩
  else none

/-- `parse_iso_date_string` (lines 132-136): `datetime.fromisoformat`, a
`ValueError` re-raised with the message prefix of the source. -/
def parse_iso_date_string (value : String) : Except Err PyDateTime :=
  match fromisoformat value with
  | some d => .ok d
  | none => .error (.valueError ("Invalid ISO date string: " ++ value))

/-! ## RPN entries, operator-stack entries and AST nodes

The output queue of `shunting_yard` holds Python dicts tagged by `type`
(and, pathologically, the raw strings `(` and `[` that the `)`/`]`
unrolling loops can pop); the operator stack holds dicts or the raw
strings `(`/`[`.  The AST reuses the same dict shapes with child lists in
place of counts. -/

/-- A literal value as stored by the `lit` output entry: `float(token)` on
success, the raw token string on `ValueError` (term_parser.py lines
180-183). -/
inductive LitV
  | num (q : Rat)
  | str (s : String)
deriving DecidableEq, Repr

/-- An entry of the shunting-yard output queue. -/
inductive RTok
  | lit (v : LitV)
  | lit_str (s : String)
  | lit_date (d : PyDateTime)
  | id (v : String)
  | fn (name : String) (args : Option Nat)
  | bin_op (name : String)
  | unary_op (name : String)
  | list (elements : Nat)
  | raw_paren
  | raw_bracket
deriving DecidableEq, Repr

/-- An entry of the operator stack. -/
inductive StackEntry
  | paren
  | bracket
  | fn (name : String)
  | bin_op (name : String)
  | unary_op (name : String)
deriving DecidableEq, Repr

/-- An AST node (the dicts produced by `build_tree`). -/
inductive Ast
  | lit (v : LitV)
  | lit_str (s : String)
  | lit_date (d : PyDateTime)
  | id (v : String)
  | unary_op (name : String) (arg : Ast)
  | bin_op (name : String) (left right : Ast)
  | fn (name : String) (args : List Ast)
  | list (elements : List Ast)

/-- `is_operator` on an operator-stack entry (lines 154-159): a raw string
is looked up in the operator sets, a dict defers to its `name`. -/
def is_operator_entry : StackEntry → Bool
  | .paren => is_operator "("
  | .bracket => is_operator "["
  | .fn n => is_operator n
  | .bin_op n => is_operator n
  | .unary_op n => is_operator n

/-- Popping an operator-stack entry onto the output queue
(`output_queue.append(operator_stack.pop())`): the dict moves unchanged
(a function marker has no `args` key yet), a raw string moves as itself. -/
def entryToRTok : StackEntry → RTok
  | .paren => .raw_paren
  | .bracket => .raw_bracket
  | .fn n => .fn n none
  | .bin_op n => .bin_op n
  | .unary_op n => .unary_op n

/-- `get_precedence` (lines 111-113): dict lookup, KeyError when absent. -/
def get_precedence (token : String) : Except Err Nat :=
  match dictGet precedence token with
  | some p => .ok p
  | none => .error (.keyError token)

/-- `get_stack_precedence` (lines 104-108) applied to the top entry:
`top["type"]` crashes with a TypeError when the top is a raw string. -/
def get_stack_precedence_entry : StackEntry → Except Err Nat
  | .fn _ =>
    (match dictGet precedence "function" with
     | some p => .ok p
     | none => .error (.keyError "function"))
  | .bin_op n =>
    (match dictGet precedence n with
     | some p => .ok p
     | none => .error (.keyError n))
  | .unary_op n =>
    (match dictGet precedence n with
     | some p => .ok p
     | none => .error (.keyError n))
  | .paren => .error (.typeError "string indices must be integers")
  | .bracket => .error (.typeError "string indices must be integers")

/-- The while-loop condition of the operator branch (lines 253-262), with
Python evaluation order: `is_operator(stack top)` short-circuits first,
then `associativity[token]` (KeyError when absent, e.g. for `neg`), then
the precedence comparisons. -/
def op_pop_cond (token : String) (top : StackEntry) : Except Err Bool :=
  if !(is_operator_entry top) then .ok false
  else do
    let a ←
      match dictGet associativity token with
      | some a => Except.ok a
      | none => Except.error (Err.keyError token)
    if a = "L" then do
      let p ← get_precedence token
      let sp ← get_stack_precedence_entry top
      .ok (decide (p ≤ sp))
    else if a = "R" then do
      let p ← get_precedence token
      let sp ← get_stack_precedence_entry top
      .ok (decide (p < sp))
    else .ok false

/-- The operator-branch popping loop. -/
def popOps (token : String) : List StackEntry → Except Err (List RTok × List StackEntry)
  | [] => .ok ([], [])
  | top :: rest => do
    let c ← op_pop_cond token top
    if c then do
      let (ts, st) ← popOps token rest
      .ok (entryToRTok top :: ts, st)
    else .ok ([], top :: rest)

/-- Pop entries until `stop` holds at the top; `none` when the stack
empties first. -/
def popUntil (stop : StackEntry → Bool) :
    List StackEntry → Option (List RTok × List StackEntry)
  | [] => none
  | top :: rest =>
    if stop top then some ([], top :: rest)
    else (popUntil stop rest).map (fun p => (entryToRTok top :: p.1, p.2))

/-- `float(token)` on a token for which `is_number` holds; `none` models
the `ValueError` fallback of lines 180-183 (the decimal value is exact in
`Rat`; the source rounds to the nearest double). -/
def floatOfNumberToken (t : String) : Option Rat :=
  let cs := t.toList
  let neg := cs.headD ' ' = '-'
  let body := if neg then cs.tail else cs
  let intPart := body.takeWhile isDigitCh
  let rest := body.drop intPart.length
  if intPart.length = 0 then none
  else
    let ip : Nat := intPart.foldl (fun acc c => acc * 10 + (c.toNat - 48)) 0
    match rest with
    | [] => some (if neg then -(ip : Rat) else (ip : Rat))
    | '.' :: fs =>
      if fs.length > 0 && fs.all isDigitCh then
        let fp : Nat := fs.foldl (fun acc c => acc * 10 + (c.toNat - 48)) 0
        let q : Rat := (ip : Rat) + (fp : Rat) / ((10 : Rat) ^ fs.length)
        some (if neg then -q else q)
      else none
    | _ => none

/-- Python `startswith`/`endswith` pair for a one-character fence (both may
inspect the same character of a length-1 token, as in the source). -/
def boundedBy (t : String) (q : Char) : Bool :=
  match t.toList with
  | [] => false
  | c :: rest => c = q && (rest.getLastD c) = q

/-- `token.startswith(p) && token.endswith(q)` for the two-character date
prefixes. -/
def dateBounded (t : String) (q : Char) : Bool :=
  let cs := t.toList
  cs.take 2 = ['d', q] && (cs.getLastD ' ') = q

/-- `token[1:-1]`. -/
def strip1 (t : String) : String := String.mk (t.toList.tail.dropLast)

/-- `token[2:-1]`. -/
def strip2 (t : String) : String := String.mk ((t.toList.drop 2).dropLast)

/-- The shunting-yard state: output queue (appended at the end), operator
stack (head is the top), and the per-call / per-list count stacks (head is
the innermost frame). -/
structure SYState where
  output : List RTok
  opStack : List StackEntry
  argument_count : List Nat
  element_count : List Nat
deriving DecidableEq, Repr

def SYState.init : SYState := ⟨[], [], [], []⟩

/-- `output_queue[-1]["type"]`: the tag of an output entry; indexing a raw
string with `"type"` raises a TypeError. -/
def rtokTypeTag : RTok → Except Err String
  | .lit _ => .ok "lit"
  | .lit_str _ => .ok "lit_str"
  | .lit_date _ => .ok "lit_date"
  | .id _ => .ok "id"
  | .fn _ _ => .ok "fun"
  | .bin_op _ => .ok "bin_op"
  | .unary_op _ => .ok "unary_op"
  | .list _ => .ok "list"
  | .raw_paren => .error (.typeError "string indices must be integers")
  | .raw_bracket => .error (.typeError "string indices must be integers")

/-- One iteration of the token loop of `shunting_yard` (lines 176-269),
with the branches in source order. -/
def syStep (st : SYState) (token : String) : Except Err SYState :=
  if is_number token then
    match floatOfNumberToken token with
    | some q => .ok { st with output := st.output ++ [.lit (.num q)] }
    | none => .ok { st with output := st.output ++ [.lit (.str token)] }
  else if boundedBy token '"' || boundedBy token sq then do
    let sv ← unescape_string_literal (strip1 token)
    .ok { st with output := st.output ++ [.lit_str sv] }
  else if dateBounded token '"' || dateBounded token sq then do
    let sv ← unescape_string_literal (strip2 token)
    if is_iso_date_string sv then do
      let d ← parse_iso_date_string sv
      .ok { st with output := st.output ++ [.lit_date d] }
    else .ok st
  else if is_identifier token && !(is_function token || is_operator token) then
    .ok { st with output := st.output ++ [.id token] }
  else if is_function token then
    .ok { st with opStack := .fn token :: st.opStack }
  else if token = "," then
    match popUntil (fun e => e = .paren || e = .bracket) st.opStack with
    | none => .error (.valueError "Misplaced function argument separator or mismatched parentheses/brackets.")
    | some (popped, newStack) =>
      let st := { st with output := st.output ++ popped, opStack := newStack }
      match newStack.head? with
      | some .paren =>
        (match st.argument_count with
         | [] => .error .indexError
         | n :: rest =>
           .ok { st with argument_count := (if n = 0 then n + 2 else n + 1) :: rest })
      | some .bracket =>
        (match st.element_count with
         | [] => .error .indexError
         | n :: rest =>
           .ok { st with element_count := (if n = 0 then n + 2 else n + 1) :: rest })
      | _ => .ok st
  else if token = "(" then
    let st := { st with argument_count := 0 :: st.argument_count }
    let found_fun :=
      match st.opStack.head? with
      | some (.fn _) => true
      | _ => false
    if found_fun then .ok { st with opStack := .paren :: st.opStack }
    else
      match st.output.getLast? with
      | none => .ok { st with opStack := .paren :: st.opStack }
      | some lastTok => do
        let tag ← rtokTypeTag lastTok
        if tag = "id" then
          match lastTok with
          | .id v =>
            .ok { st with output := st.output.dropLast,
                          opStack := .paren :: .fn v :: st.opStack }
          | _ => .ok { st with opStack := .paren :: st.opStack }
        else .ok { st with opStack := .paren :: st.opStack }
  else if token = "[" then
    .ok { st with opStack := .bracket :: st.opStack,
                  element_count := 0 :: st.element_count }
  else if token = ")" then
    match popUntil (fun e => e = .paren) st.opStack with
    | none => .error (.valueError "Mismatched parentheses when unrolling.")
    | some (popped, newStack) =>
      let st := { st with output := st.output ++ popped,
                          opStack := newStack.tail }
      match st.opStack.head? with
      | none => .ok st
      | some (.fn name) =>
        (match st.argument_count with
         | [] => .error .indexError
         | args :: restCounts =>
           .ok { st with opStack := st.opStack.tail,
                         argument_count := restCounts,
                         output := st.output ++ [.fn name (some args)] })
      | some .paren => .error (.typeError "string indices must be integers")
      | some .bracket => .error (.typeError "string indices must be integers")
      | some _ => .ok st
  else if token = "]" then
    match popUntil (fun e => e = .bracket) st.opStack with
    | none => .error (.valueError "Mismatched brackets when unrolling.")
    | some (popped, newStack) =>
      (match st.element_count with
       | [] => .error .indexError
       | n :: restCounts =>
         .ok { st with output := st.output ++ popped ++ [.list n],
                       opStack := newStack.tail,
                       element_count := restCounts })
  else if is_operator token then do
    let (popped, newStack) ← popOps token st.opStack
    let entry : StackEntry :=
      if is_binary_operator token then .bin_op token else .unary_op token
    .ok { st with output := st.output ++ popped, opStack := entry :: newStack }
  else .error (.valueError ("Unknown token: " ++ token))

/-- The drain loop after the last token (lines 271-276). -/
def drainStack : List StackEntry → Except Err (List RTok)
  | [] => .ok []
  | top :: rest =>
    if top = .paren then .error (.valueError "Mismatched parentheses.")
    else if top = .bracket then .error (.valueError "Mismatched brackets.")
    else do
      let ts ← drainStack rest
      .ok (entryToRTok top :: ts)

/-- `shunting_yard` (lines 170-278). -/
def shunting_yard (tokens : List String) : Except Err (List RTok) := do
  let st ← tokens.foldlM syStep SYState.init
  let extra ← drainStack st.opStack
  .ok (st.output ++ extra)

/-- `check_parentheses_balance` (lines 281-291). -/
def balanceAux : List String → Int → Except Err Unit
  | [], b =>
    if b > 0 then
      .error (.valueError ("Unbalanced parentheses: missing closing parenthesis - " ++ toString b))
    else .ok ()
  | t :: rest, b =>
    let b2 : Int := if t = "(" then b + 1 else if t = ")" then b - 1 else b
    if b2 < 0 then
      .error (.valueError "Unbalanced parentheses: too many closing parentheses")
    else balanceAux rest b2

def check_parentheses_balance (tokens : List String) : Except Err Unit :=
  balanceAux tokens 0

/-! ## Tree builder (term_parser.py lines 300-334) -/

/-- `[stack.pop() for _ in range(n)]`: remove the first `n` entries (top
first), raising IndexError when the stack runs short. -/
def popN : Nat → List Ast → Except Err (List Ast × List Ast)
  | 0, st => .ok ([], st)
  | _ + 1, [] => .error .indexError
  | n + 1, a :: st => do
    let (popped, rest) ← popN n st
    .ok (a :: popped, rest)

/-- Truthiness of an AST dict: a Python dict is falsy only when empty, and
every node dict carries at least its `type` key, so the
`if not left or not right` guard of line 312 can never fire. -/
def astFalsy (_ : Ast) : Bool := false

/-- One iteration of the `build_tree` loop (lines 303-322). -/
def build_step (stack : List Ast) (t : RTok) : Except Err (List Ast) :=
  match t with
  | .lit v => .ok (.lit v :: stack)
  | .lit_str s => .ok (.lit_str s :: stack)
  | .lit_date d => .ok (.lit_date d :: stack)
  | .id v => .ok (.id v :: stack)
  | .unary_op n =>
    (match stack with
     | [] => .error .indexError
     | a :: rest => .ok (.unary_op n a :: rest))
  | .bin_op n =>
    (match stack with
     | [] => .error .indexError
     | [_] => .error .indexError
     | right :: left :: rest =>
       if astFalsy left || astFalsy right then
         .error (.valueError ("Syntax Error: Insufficient operands for " ++ n))
       else .ok (.bin_op n left right :: rest))
  | .fn name args? =>
    (match args? with
     | none => .error (.keyError "args")
     | some n => do
       let (popped, rest) ← popN n stack
       .ok (.fn name popped.reverse :: rest))
  | .list n => do
    let (popped, rest) ← popN n stack
    .ok (.list popped.reverse :: rest)
  | .raw_paren => .error (.typeError "string indices must be integers")
  | .raw_bracket => .error (.typeError "string indices must be integers")

/-- The message of the final single-root check (lines 325-330). -/
def malformedMsg : String :=
  "Syntax Error: The user might have not closed a parenthesis or the expression is malformed."

/-- `build_tree` (lines 300-332). -/
def build_tree (rpn : List RTok) : Except Err Ast := do
  let stack ← rpn.foldlM build_step []
  match stack with
  | [t] => .ok t
  | _ => .error (.valueError malformedMsg)

/-- `parse_to_tree` from a token list (balance check, conversion, build). -/
def parse_tokens (tokens : List String) : Except Err Ast := do
  check_parentheses_balance tokens
  let rpn ← shunting_yard tokens
  build_tree rpn

/-- `parse_to_tree` (lines 294-334). -/
def parse_to_tree (expression : String) : Except Err Ast :=
  parse_tokens (tokenize expression)

/-! ## Runtime values (term_interpreter.py)

A `Value` is a Python runtime value reachable by the evaluator.  A finite
float is a `num`; the nonfinite floats that `float(...)` can return are
the distinguished `inf` and `nan` values (truthiness, equality and
`isinf`-family tests on them are modelled faithfully; their arithmetic is
outside the model and reached by no theorem).  Builtin catalog entries
(callables and the five float constants `pi, e, inf, tau, nan`, none of
which is rational) are modelled as named objects `Value.builtin`;
applying one is outside the model (`Err.modelGap`), which no theorem
below needs. -/

inductive Value
  | num (q : Rat)
  | inf (neg : Bool)
  | nan
  | bool (b : Bool)
  | str (s : String)
  | date (d : PyDateTime)
  | list (vs : List Value)
  | builtin (name : String)

/-- Python truthiness of a `Value` (`bool(inf)` and `bool(nan)` are both
true). -/
def truthy : Value → Bool
  | .num q => q ≠ 0
  | .inf _ => true
  | .nan => true
  | .bool b => b
  | .str s => !s.toList.isEmpty
  | .date _ => true
  | .list vs => !vs.isEmpty
  | .builtin _ => true

/-- A nonfinite float value. -/
def isNonfinite : Value → Bool
  | .inf _ => true
  | .nan => true
  | _ => false

/-- Numeric view: Python `bool` is an `int`, so arithmetic accepts it. -/
def toNum : Value → Option Rat
  | .num q => some q
  | .bool b => some (if b then 1 else 0)
  | _ => none

/-- Lexicographic (code-point) comparison of Python strings. -/
def charListLt : List Char → List Char → Bool
  | [], [] => false
  | [], _ :: _ => true
  | _ :: _, [] => false
  | a :: as2, b :: bs => a < b || (a = b && charListLt as2 bs)

/-- Microseconds of a datetime from a fixed origin (proleptic Gregorian),
before any offset adjustment; injective on in-range field tuples, so
comparing keys is comparing field tuples. -/
def dateBaseKey (d : PyDateTime) : Int :=
  let pre : Nat := d.year - 1
  let leapDays : Int := ((pre / 4 : Nat) : Int) - ((pre / 100 : Nat) : Int) + ((pre / 400 : Nat) : Int)
  let dbefore : Nat := [0, 31, 59, 90, 120, 151, 181, 212, 243, 273, 304, 334].getD (d.month - 1) 0
  let leapAdj : Int := if d.month > 2 && isLeapYear d.year then 1 else 0
  let days : Int := 365 * (pre : Int) + leapDays + (dbefore : Int) + leapAdj + (d.day : Int)
  (((days * 24 + (d.hour : Int)) * 60 + (d.minute : Int)) * 60 + (d.second : Int)) * 1000000
    + (d.microsecond : Int)

/-- Instant key of an aware datetime (offset subtracted). -/
def dateAwareKey (d : PyDateTime) (off : Int) : Int :=
  dateBaseKey d - off * 60000000

/-- Python `==` on two datetimes: naive with naive and aware with aware
compare by instant, a naive/aware mix is unequal. -/
def dateEq (d1 d2 : PyDateTime) : Bool :=
  match d1.tzMin, d2.tzMin with
  | none, none => dateBaseKey d1 = dateBaseKey d2
  | some o1, some o2 => dateAwareKey d1 o1 = dateAwareKey d2 o2
  | _, _ => false

/-- Python `<` on two datetimes: a naive/aware mix raises a TypeError. -/
def dateLt (d1 d2 : PyDateTime) : Except Err Bool :=
  match d1.tzMin, d2.tzMin with
  | none, none => .ok (decide (dateBaseKey d1 < dateBaseKey d2))
  | some o1, some o2 => .ok (decide (dateAwareKey d1 o1 < dateAwareKey d2 o2))
  | _, _ => .error (.typeError "cannot compare offset-naive and offset-aware datetimes")

mutual
/-- Python `==` between two runtime values (never raises; unrelated kinds
are unequal; two catalog objects are the same object exactly when they are
the same catalog entry). -/
def pyEq : Value → Value → Bool
  | .list vs, .list ws => pyEqList vs ws
  | .str a, .str b => a = b
  | .date a, .date b => dateEq a b
  | .builtin a, .builtin b => a = b
  | .nan, _ => false
  | _, .nan => false
  | .inf x, .inf y => x = y
  | .inf _, _ => false
  | _, .inf _ => false
  | a, b =>
    match toNum a, toNum b with
    | some x, some y => x = y
    | _, _ => false

/-- Element-wise `==` of two Python lists. -/
def pyEqList : List Value → List Value → Bool
  | [], [] => true
  | a :: as2, b :: bs => pyEq a b && pyEqList as2 bs
  | _, _ => false
end

/-- The result of Python `float(...)`: a finite value or one of the
nonfinite floats. -/
inductive PyFloat
  | finite (q : Rat)
  | inf (neg : Bool)
  | nan
deriving DecidableEq, Repr

/-- A run of decimal digits with single underscores allowed strictly
between digits (the numeric-literal rule `float()` follows): returns the
accumulated value, the number of digits consumed, and the rest.  An
underscore not both preceded and followed by a digit stops the run and
stays in the rest. -/
def digitsURun : List Char → Nat → Nat → Nat × Nat × List Char
  | '_' :: d :: r, acc, cnt =>
    if cnt ≠ 0 && isDigitCh d then digitsURun r (acc * 10 + (d.toNat - 48)) (cnt + 1)
    else (acc, cnt, '_' :: d :: r)
  | c :: r, acc, cnt =>
    if isDigitCh c then digitsURun r (acc * 10 + (c.toNat - 48)) (cnt + 1)
    else (acc, cnt, c :: r)
  | [], acc, cnt => (acc, cnt, [])

/-- Python `float(s)` (per the declared ASCII convention: ASCII digits
and whitespace): surrounding whitespace stripped, optional sign, then
either the case-insensitive words `inf`, `infinity`, `nan`, or a decimal
form `digits [. [digits]] | . digits` with an optional `e`/`E` exponent,
underscores permitted between digits throughout; `none` is the
ValueError of a malformed literal. -/
def pyFloatOfString (s : String) : Option PyFloat :=
  let cs := (s.toList.dropWhile isSpaceCh).reverse.dropWhile isSpaceCh |>.reverse
  let (neg, body) :=
    match cs with
    | '+' :: rest => (false, rest)
    | '-' :: rest => (true, rest)
    | _ => (false, cs)
  let low := lowerAscii (String.mk body)
  if low = "inf" || low = "infinity" then some (.inf neg)
  else if low = "nan" then some .nan
  else
    let (ipVal, ipCnt, r1) := digitsURun body 0 0
    let (fpVal, fpCnt, r2) :=
      match r1 with
      | '.' :: rest => digitsURun rest 0 0
      | _ => (0, 0, r1)
    if ipCnt = 0 && fpCnt = 0 then none
    else
      let expPart : Option Int :=
        match r2 with
        | [] => some 0
        | e :: rest =>
          if e = 'e' || e = 'E' then
            let (esign, eds) :=
              match rest with
              | '+' :: r => ((1 : Int), r)
              | '-' :: r => ((-1 : Int), r)
              | r => ((1 : Int), r)
            let (expVal, expCnt, r3) := digitsURun eds 0 0
            if expCnt > 0 && r3 = [] then some (esign * (expVal : Nat))
            else none
          else none
      match expPart with
      | none => none
      | some e =>
        let base : Rat := (ipVal : Rat) + (fpVal : Rat) / ((10 : Rat) ^ fpCnt)
        let scaled : Rat := base * (10 : Rat) ^ e
        some (.finite (if neg then -scaled else scaled))

/-- Python `int(s)`: stripped, optional sign, decimal digits. -/
def pyIntOfString (s : String) : Option Int :=
  let cs := (s.toList.dropWhile isSpaceCh).reverse.dropWhile isSpaceCh |>.reverse
  let (neg, body) :=
    match cs with
    | '+' :: rest => (false, rest)
    | '-' :: rest => (true, rest)
    | _ => (false, cs)
  if body.length > 0 && body.all isDigitCh then
    let n : Nat := body.foldl (fun acc c => acc * 10 + (c.toNat - 48)) 0
    some (if neg then -(n : Int) else (n : Int))
  else none

/-- Truncation toward zero (Python `math.trunc` / `int` on a float). -/
def truncRat (q : Rat) : Int := q.num / (q.den : Int)

/-! ## Operator application (term_interpreter.py lines 8-49) -/

/-- The key set of the interpreter dict `binary_operators` (lines 26-49);
note the extra `pow` alias that the parser never emits. -/
def interp_binary_names : List String :=
  ["+", "-", "*", "/", "//", "**", "pow", "mod", "%", "<", "<=", ">", ">=",
   "==", "!=", "and", "or", "|", "&", "xor", "<<", ">>"]

/-- The interpreter dict `unary_operators` (lines 8-24) as an association
of operator name to implementing host function. -/
def interp_unary_table : List (String × String) :=
  [("not", "operator.not_"), ("inv", "operator.inv"), ("~", "operator.inv"),
   ("neg", "operator.neg"), ("floor", "math.floor"), ("trunc", "math.trunc"),
   ("ceil", "math.ceil"), ("isinf", "math.isinf"), ("isnan", "math.isnan"),
   ("isfinite", "math.isfinite"), ("abs", "operator.abs"), ("int", "int"),
   ("str", "str"), ("float", "float"), ("bool", "bool")]

def interp_unary_names : List String := interp_unary_table.map (fun p => p.1)

def typeErrOp (name : String) : Except Err Value :=
  .error (.typeError ("unsupported operand type(s) for " ++ name))

/-- Python `a < b` (also the base of the other strict/loose comparisons).
-/
def pyLt (a b : Value) : Except Err Bool :=
  match toNum a, toNum b with
  | some x, some y => .ok (decide (x < y))
  | _, _ =>
    match a, b with
    | .str x, .str y => .ok (charListLt x.toList y.toList)
    | .date x, .date y => dateLt x y
    | _, _ => .error (.typeError "comparison not supported between operand types")

/-- `binary_operators[name](a, b)`, the dict lookup included (a missing
name is the KeyError of `evaluate` line 300).  Equality and the
truthiness-based `and`/`or` handle nonfinite floats faithfully
(`nan == nan` is false, `inf == inf` is true, both are truthy); their
arithmetic and ordering are outside the model. -/
def applyBin (name : String) (a b : Value) : Except Err Value :=
  if isNonfinite a || isNonfinite b then
    if name = "==" then .ok (.bool (pyEq a b))
    else if name = "!=" then .ok (.bool (!pyEq a b))
    else if name = "and" then .ok (if truthy a then b else a)
    else if name = "or" then .ok (if truthy a then a else b)
    else if interp_binary_names.contains name then
      .error (.modelGap "arithmetic or ordering on nonfinite floats is not modelled")
    else .error (.keyError name)
  else if name = "+" then
    match toNum a, toNum b with
    | some x, some y => .ok (.num (x + y))
    | _, _ =>
      match a, b with
      | .str x, .str y => .ok (.str (x ++ y))
      | .list x, .list y => .ok (.list (x ++ y))
      | _, _ => typeErrOp "+"
  else if name = "-" then
    match toNum a, toNum b with
    | some x, some y => .ok (.num (x - y))
    | _, _ =>
      match a, b with
      | .date _, .date _ => .error (.modelGap "datetime difference (timedelta) is not modelled")
      | _, _ => typeErrOp "-"
  else if name = "*" then
    match toNum a, toNum b with
    | some x, some y => .ok (.num (x * y))
    | _, _ => typeErrOp "*"
  else if name = "/" then
    match toNum a, toNum b with
    | some x, some y =>
      if y = 0 then .error .zeroDivisionError else .ok (.num (x / y))
    | _, _ => typeErrOp "/"
  else if name = "//" then
    match toNum a, toNum b with
    | some x, some y =>
      if y = 0 then .error .zeroDivisionError else .ok (.num (⌊x / y⌋ : Int))
    | _, _ => typeErrOp "//"
  else if name = "**" || name = "pow" then
    match toNum a, toNum b with
    | some x, some y =>
      if y.den = 1 then
        if y.num ≥ 0 then .ok (.num (x ^ y.num.toNat))
        else if x = 0 then .error .zeroDivisionError
        else .ok (.num (x ^ y.num))
      else .error (.modelGap "non-integer exponent is not modelled")
    | _, _ => typeErrOp "**"
  else if name = "mod" || name = "%" then
    match toNum a, toNum b with
    | some x, some y =>
      if y = 0 then .error .zeroDivisionError
      else .ok (.num (x - y * (⌊x / y⌋ : Int)))
    | _, _ => typeErrOp "%"
  else if name = "<" then (pyLt a b).map .bool
  else if name = "<=" then do
    let lt ← pyLt a b
    .ok (.bool (lt || pyEq a b))
  else if name = ">" then (pyLt b a).map .bool
  else if name = ">=" then do
    let lt ← pyLt b a
    .ok (.bool (lt || pyEq a b))
  else if name = "==" then .ok (.bool (pyEq a b))
  else if name = "!=" then .ok (.bool (!pyEq a b))
  else if name = "and" then .ok (if truthy a then b else a)
  else if name = "or" then .ok (if truthy a then a else b)
  else if name = "|" then
    match a, b with
    | .bool x, .bool y => .ok (.bool (x || y))
    | _, _ => typeErrOp "|"
  else if name = "&" then
    match a, b with
    | .bool x, .bool y => .ok (.bool (x && y))
    | _, _ => typeErrOp "&"
  else if name = "xor" then
    match a, b with
    | .bool x, .bool y => .ok (.bool (x != y))
    | _, _ => typeErrOp "^"
  else if name = "<<" then
    match a, b with
    | .bool x, .bool y => .ok (.num ((if x then 1 else 0) * 2 ^ (if y then 1 else 0)))
    | _, _ => typeErrOp "<<"
  else if name = ">>" then
    match a, b with
    | .bool x, .bool y => .ok (.num ((if x then 1 else 0) / 2 ^ (if y then 1 else 0)))
    | _, _ => typeErrOp ">>"
  else .error (.keyError name)

/-- The value a successful `float(...)` call evaluates to. -/
def pyFloatToValue : PyFloat → Value
  | .finite q => .num q
  | .inf b => .inf b
  | .nan => .nan

/-- `unary_operators[name](v)`, the dict lookup included. -/
def applyUnary (name : String) (v : Value) : Except Err Value :=
  if name = "not" then .ok (.bool (!truthy v))
  else if name = "inv" || name = "~" then
    match v with
    | .bool b => .ok (.num (if b then -2 else -1))
    | _ => typeErrOp "~"
  else if name = "neg" then
    match v with
    | .inf b => .ok (.inf (!b))
    | .nan => .ok .nan
    | _ =>
      match toNum v with
      | some x => .ok (.num (-x))
      | none => typeErrOp "neg"
  else if name = "floor" then
    match v with
    | .inf _ => .error .overflowError
    | .nan => .error (.valueError "cannot convert float NaN to integer")
    | _ =>
      match toNum v with
      | some x => .ok (.num (⌊x⌋ : Int))
      | none => typeErrOp "floor"
  else if name = "trunc" then
    match v with
    | .inf _ => .error .overflowError
    | .nan => .error (.valueError "cannot convert float NaN to integer")
    | _ =>
      match toNum v with
      | some x => .ok (.num (truncRat x))
      | none => typeErrOp "trunc"
  else if name = "ceil" then
    match v with
    | .inf _ => .error .overflowError
    | .nan => .error (.valueError "cannot convert float NaN to integer")
    | _ =>
      match toNum v with
      | some x => .ok (.num (⌈x⌉ : Int))
      | none => typeErrOp "ceil"
  else if name = "isinf" then
    match v with
    | .inf _ => .ok (.bool true)
    | .nan => .ok (.bool false)
    | _ =>
      match toNum v with
      | some _ => .ok (.bool false)
      | none => typeErrOp name
  else if name = "isnan" then
    match v with
    | .inf _ => .ok (.bool false)
    | .nan => .ok (.bool true)
    | _ =>
      match toNum v with
      | some _ => .ok (.bool false)
      | none => typeErrOp name
  else if name = "isfinite" then
    match v with
    | .inf _ => .ok (.bool false)
    | .nan => .ok (.bool false)
    | _ =>
      match toNum v with
      | some _ => .ok (.bool true)
      | none => typeErrOp name
  else if name = "abs" then
    match v with
    | .inf _ => .ok (.inf false)
    | .nan => .ok .nan
    | _ =>
      match toNum v with
      | some x => .ok (.num |x|)
      | none => typeErrOp "abs"
  else if name = "int" then
    match v with
    | .num q => .ok (.num (truncRat q))
    | .inf _ => .error .overflowError
    | .nan => .error (.valueError "cannot convert float NaN to integer")
    | .bool b => .ok (.num (if b then 1 else 0))
    | .str s =>
      (match pyIntOfString s with
       | some n => .ok (.num n)
       | none => .error (.valueError ("invalid literal for int() with base 10: " ++ s)))
    | _ => typeErrOp "int"
  else if name = "str" then
    match v with
    | .str s => .ok (.str s)
    | .bool b => .ok (.str (if b then "True" else "False"))
    | _ => .error (.modelGap "host repr formatting is not modelled")
  else if name = "float" then
    match v with
    | .num q => .ok (.num q)
    | .inf b => .ok (.inf b)
    | .nan => .ok .nan
    | .bool b => .ok (.num (if b then 1 else 0))
    | .str s =>
      (match pyFloatOfString s with
       | some f => .ok (pyFloatToValue f)
       | none => .error (.valueError ("could not convert string to float: " ++ s)))
    | _ => typeErrOp "float"
  else if name = "bool" then .ok (.bool (truthy v))
  else .error (.keyError name)

/-! ## Evaluator (term_interpreter.py lines 290-337) -/

/-- The builtin catalog `builtin_env` (lines 217-287): every name bound to
its callable or float-constant object, modelled as a named object. -/
def builtin_names : List String :=
  ["min", "max", "log", "log1p", "log2", "log10", "exp", "fsum", "gcd",
   "sqrt", "isqrt", "cos", "sin", "tan", "acos", "asin", "atan", "degrees",
   "radians", "mean", "fmean", "geometric_mean", "median", "stdev",
   "variance", "pi", "e", "inf", "tau", "nan",
   "str.concat", "str.length", "str.substring", "str.replace",
   "str.toUpper", "str.toLower", "str.trim", "str.split", "str.indexOf",
   "str.contains", "str.startsWith", "str.endsWith", "str.regexMatch",
   "str.format",
   "date.parse", "date.format", "date.addDays", "date.addHours",
   "date.addMinutes", "date.addSeconds", "date.dayOfWeek",
   "date.dayOfMonth", "date.dayOfYear", "date.month", "date.year",
   "date.week",
   "list.length", "list.append", "list.concat", "list.get", "list.put",
   "list.slice", "list.map", "list.filter", "apply"]

def builtin_env : List (String × Value) :=
  builtin_names.map (fun n => (n, .builtin n))

/-- Calling an environment value (`env[name](*args)`, line 306): outside
the model (no theorem below evaluates a call). -/
def applyCall (_ : Value) (_ : List Value) : Except Err Value :=
  .error (.modelGap "application of environment callables is not modelled")

/-- The `lit` branch for a string-typed stored value (lines 310-319):
`true`/`false` case-insensitively, then the quote-bounded check
(`value[0]`/`value[-1]`, an IndexError on the empty string), then
`float(value)`. -/
def evalNumLitStr (v : String) : Except Err Value :=
  if lowerAscii v = "true" then .ok (.num 1)
  else if lowerAscii v = "false" then .ok (.num 0)
  else
    match v.toList with
    | [] => .error .indexError
    | c :: rest =>
      let lastC := (c :: rest).getLastD c
      if (c = '"' || c = sq) && (lastC = '"' || lastC = sq) then
        .ok (.str (String.mk rest.dropLast))
      else
        match pyFloatOfString v with
        | some f => .ok (pyFloatToValue f)
        | none => .error (.valueError ("could not convert string to float: " ++ v))

mutual
/-- The recursive body of `evaluate` (lines 297-337), with the merged
environment fixed (recursive calls pass `join_builtin=False`). -/
def evalAst (env : String → Option Value) : Ast → Except Err Value
  | .bin_op name l r => do
    let leftVal ← evalAst env l
    let rightVal ← evalAst env r
    applyBin name leftVal rightVal
  | .unary_op name a => do
    let v ← evalAst env a
    applyUnary name v
  | .fn name args => do
    let vs ← evalArgs env args
    match env name with
    | none => .error (.keyError name)
    | some f => applyCall f vs
  | .list es => do
    let vs ← evalArgs env es
    .ok (.list vs)
  | .lit v =>
    (match v with
     | .num q => .ok (.num q)
     | .str s => evalNumLitStr s)
  | .lit_str s => .ok (.str s)
  | .lit_date d => .ok (.date d)
  | .id name =>
    (match env name with
     | some v => .ok v
     | none => .error (.nameError ("Undefined identifier: " ++ name)))

/-- Left-to-right evaluation of an argument/element list. -/
def evalArgs (env : String → Option Value) : List Ast → Except Err (List Value)
  | [] => .ok []
  | a :: rest => do
    let v ← evalAst env a
    let vs ← evalArgs env rest
    .ok (v :: vs)
end

/-- `evaluate(ast, env)` with `join_builtin=True` (lines 290-295): the
caller environment overrides the builtin catalog
(`{**builtin_env, **env}`). -/
def evaluate (ast : Ast) (env : String → Option Value) : Except Err Value :=
  evalAst (fun n =>
    match env n with
    | some v => some v
    | none => dictGet builtin_env n) ast

/-- The empty caller environment (`evaluate(ast)` with `env=None`). -/
def emptyEnv : String → Option Value := fun _ => none

/-! ## Helper lemmas -/

theorem popN_ok {n : Nat} {st popped rest : List Ast}
    (h : popN n st = .ok (popped, rest)) :
    popped = st.take n ∧ rest = st.drop n ∧ popped.length = n := by
  induction n generalizing st popped rest with
  | zero =>
    simp only [popN, Except.ok.injEq, Prod.mk.injEq] at h
    obtain ⟨h1, h2⟩ := h
    simp [← h1, ← h2]
  | succ n ih =>
    cases st with
    | nil => simp [popN] at h
    | cons a tl =>
      cases hp : popN n tl with
      | error e => simp [popN, hp, Bind.bind, Except.bind] at h
      | ok pr =>
        obtain ⟨p, r⟩ := pr
        simp only [popN, hp, Bind.bind, Except.bind, Except.ok.injEq, Prod.mk.injEq] at h
        obtain ⟨h1, h2⟩ := h
        obtain ⟨e1, e2, e3⟩ := ih hp
        subst h1 h2
        have hle : n ≤ tl.length := by
          have h3 := e3
          rw [e1, List.length_take] at h3
          omega
        simp [e1, e2, e3, hle]

theorem takeWhile_all {p : Char → Bool} :
    ∀ {cs : List Char}, (∀ c ∈ cs, p c = true) → cs.takeWhile p = cs := by
  intro cs
  induction cs with
  | nil => intro _; rfl
  | cons c rest ih =>
    intro h
    have hc : p c = true := h c (List.mem_cons_self c rest)
    simp [List.takeWhile_cons, hc, ih (fun d hd => h d (List.mem_cons_of_mem c hd))]

theorem matchAlt_nil (prev : Option Char) : matchAlt prev [] = none := rfl

theorem findFrom_allspace (prev : Option Char) (gapAcc : List Char) :
    ∀ {cs : List Char}, (∀ c ∈ cs, isSpaceCh c = true) →
      findFrom prev gapAcc cs = none := by
  intro cs
  induction cs generalizing prev gapAcc with
  | nil => intro _; rfl
  | cons c rest ih =>
    intro h
    have hws : (c :: rest).takeWhile isSpaceCh = c :: rest := takeWhile_all h
    have hdrop : (c :: rest).drop ((c :: rest).takeWhile isSpaceCh).length = [] := by
      rw [hws]; simp
    simp only [findFrom, hdrop, matchAlt_nil]
    exact ih (some c) (c :: gapAcc) (fun d hd => h d (List.mem_cons_of_mem c hd))

/-- A date-literal token starts with `d` followed by its quote. -/
theorem dateTok_shape {t : String}
    (h : (dateBounded t '"' || dateBounded t sq) = true) :
    ∃ q rest, t.toList = 'd' :: q :: rest ∧ (q = '"' ∨ q = sq) := by
  rcases Bool.or_eq_true_iff.mp h with h1 | h1
  all_goals
    unfold dateBounded at h1
    rcases Bool.and_eq_true_iff.mp h1 with ⟨htake, _⟩
    rw [decide_eq_true_eq] at htake
    cases hcs : t.toList with
    | nil => rw [hcs] at htake; simp at htake
    | cons a tl =>
      cases tl with
      | nil => rw [hcs] at htake; simp at htake
      | cons b tl2 =>
        rw [hcs] at htake
        simp only [List.take, List.cons.injEq, and_true] at htake
        obtain ⟨ha, hb⟩ := htake
        subst ha; subst hb
        first
        | exact ⟨'"', tl2, rfl, Or.inl rfl⟩
        | exact ⟨sq, tl2, rfl, Or.inr rfl⟩

theorem is_number_false_of_d {t : String} {q : Char} {rest : List Char}
    (hcs : t.toList = 'd' :: q :: rest) : is_number t = false := by
  unfold is_number
  rw [hcs]
  have h1 : isDigitCh 'd' = false := by decide
  have h2 : (('d' : Char) = '-') = False := by simp
  simp [List.headD, h2, List.takeWhile_cons, h1]

theorem boundedBy_false_of_d {t : String} {q : Char} {rest : List Char}
    (hcs : t.toList = 'd' :: q :: rest) :
    (boundedBy t '"' || boundedBy t sq) = false := by
  unfold boundedBy
  rw [hcs]
  have h1 : (('d' : Char) = '"') = False := by simp
  have h2 : (('d' : Char) = sq) = False := by simp [sq]
  simp [h1, h2]

/-! ## Claim C1 -/

/-- The expression `str.length('abc')`. -/
def c1_expr : String :=
  "str.length(" ++ String.mk [sq] ++ "abc" ++ String.mk [sq] ++ ")"

/-- C1: a call with exactly one unseparated argument does *not* get
argument count 1: the converter attaches count 0 (the count is only ever
touched by the separator branch), and the builder, popping zero children,
then fails the single-root check.  The zero-argument and separator cases
behave as the claim says, and a `Call` marker carrying count 1 would
indeed attach the one argument — the slip is only the missing count for a
lone argument. -/
theorem c1_one_arg_call_gets_zero_count :
    tokenize c1_expr = ["str.length", "(", String.mk [sq, 'a', 'b', 'c', sq], ")"] ∧
    shunting_yard (tokenize c1_expr) = .ok [.lit_str "abc", .fn "str.length" (some 0)] ∧
    parse_to_tree c1_expr = .error (.valueError malformedMsg) ∧
    build_tree [.lit_str "abc", .fn "str.length" (some 1)] =
      .ok (.fn "str.length" [.lit_str "abc"]) ∧
    parse_tokens ["f", "(", ")"] = .ok (.fn "f" []) ∧
    parse_tokens ["f", "(", "x", ",", "y", ")"] = .ok (.fn "f" [.id "x", .id "y"]) := by
  refine ⟨?_, ?_, ?_, ?_, ?_, ?_⟩ <;> with_unfolding_all rfl

/-! ## Claim C2 -/

/-- C2: after the `)` handler pops the matching `(`, it inspects the new
top with `operator_stack[-1]["type"]`; when that top is the raw string
`(` (or `[`), Python raises a TypeError instead of leaving it in place,
so `((1))` crashes while `1` parses.  The balance pre-check accepts the
input, and the last conjunct pins the crash to the `)` step itself (the
state reached after consuming `(`, `(`, `1`). -/
theorem c2_redundant_parens_crash :
    tokenize "((1))" = ["(", "(", "1", ")", ")"] ∧
    check_parentheses_balance (tokenize "((1))") = .ok () ∧
    parse_to_tree "((1))" = .error (.typeError "string indices must be integers") ∧
    parse_to_tree "1" = .ok (.lit (.num 1)) ∧
    syStep { output := [.lit (.num 1)], opStack := [.paren, .paren],
             argument_count := [0, 0], element_count := [] } ")" =
      .error (.typeError "string indices must be integers") := by
  refine ⟨?_, ?_, ?_, ?_, ?_⟩ <;> with_unfolding_all rfl

/-! ## Claim C3 -/

/-- C3 counterexample: seven of the names the claim lists are rejected by
`is_unary_operator` (the parser set has only eight members). -/
theorem c3_counterexample :
    is_unary_operator "trunc" = false ∧ is_unary_operator "str" = false ∧
    is_unary_operator "isinf" = false ∧ is_unary_operator "isnan" = false ∧
    is_unary_operator "isfinite" = false ∧ is_unary_operator "inv" = false ∧
    is_unary_operator "~" = false := by
  refine ⟨?_, ?_, ?_, ?_, ?_, ?_, ?_⟩ <;> rfl

/-- C3 (amended): `is_unary_operator` accepts exactly the eight parser
names `not, neg, floor, ceil, abs, int, float, bool`; the other seven
names of the claim live only in the interpreter's unary table (where `~`
and `inv` are bound to the same host function); `is_unary_operator`
rejects every binary name, and the unary and binary name sets are
disjoint in the parser and in the interpreter. -/
theorem c3_amended_sets :
    unary_operators = ["not", "neg", "floor", "ceil", "abs", "int", "float", "bool"] ∧
    (unary_operators.all (fun n => is_unary_operator n)) = true ∧
    (["trunc", "str", "isinf", "isnan", "isfinite", "inv", "~"].all
       (fun n => !(is_unary_operator n) && interp_unary_names.contains n)) = true ∧
    (binary_operators.all (fun n => !(is_unary_operator n))) = true ∧
    (unary_operators.all (fun n => !(is_binary_operator n))) = true ∧
    (interp_unary_names.all (fun n => !(interp_binary_names.contains n))) = true ∧
    dictGet interp_unary_table "inv" = dictGet interp_unary_table "~" ∧
    dictGet interp_unary_table "inv" = some "operator.inv" := by
  refine ⟨?_, ?_, ?_, ?_, ?_, ?_, ?_, ?_⟩ <;> rfl

/-! ## Claim C4 -/

/-- C4: the popping condition of the operator branch holds exactly when
the incoming operator is left-associative with precedence at most the
stack top's, or right-associative with precedence strictly below it; and
`2 ** 3 ** 2` parses right-grouped and evaluates to 512, not 64. -/
theorem c4_pop_rule_and_right_assoc_pow :
    (∀ (token a : String) (p sp : Nat) (top : StackEntry),
        dictGet associativity token = some a →
        dictGet precedence token = some p →
        get_stack_precedence_entry top = .ok sp →
        is_operator_entry top = true →
        (op_pop_cond token top = .ok true ↔
          ((a = "L" ∧ p ≤ sp) ∨ (a = "R" ∧ p < sp)))) ∧
    parse_to_tree "2 ** 3 ** 2" =
      .ok (.bin_op "**" (.lit (.num 2)) (.bin_op "**" (.lit (.num 3)) (.lit (.num 2)))) ∧
    (parse_to_tree "2 ** 3 ** 2").bind (fun t => evaluate t emptyEnv) = .ok (.num 512) ∧
    (512 : Rat) ≠ 64 := by
  refine ⟨?_, ?_, ?_, ?_⟩
  · intro token a p sp top ha hp hsp htop
    unfold op_pop_cond
    rw [htop]
    simp only [Bool.not_true, Bool.false_eq_true, if_false, ha, get_precedence, hp, hsp]
    by_cases hL : a = "L"
    · subst hL
      simp [Bind.bind, Except.bind]
    · by_cases hR : a = "R"
      · subst hR
        simp [Bind.bind, Except.bind]
      · simp [hL, hR, Bind.bind, Except.bind]
  · with_unfolding_all rfl
  · with_unfolding_all rfl
  · with_unfolding_all decide

/-- C4 witness: the theorem applied at the incoming token `**` over a
stacked `**` (both sides precedence 9, right-associative, so no pop),
plus the left-associative tie case popping. -/
theorem c4_witness :
    dictGet associativity "**" = some "R" ∧
    dictGet precedence "**" = some 9 ∧
    get_stack_precedence_entry (.bin_op "**") = .ok 9 ∧
    is_operator_entry (.bin_op "**") = true ∧
    (op_pop_cond "**" (.bin_op "**") = .ok true ↔
      (("R" = "L" ∧ 9 ≤ 9) ∨ ("R" = "R" ∧ 9 < 9))) ∧
    op_pop_cond "**" (.bin_op "**") = .ok false ∧
    op_pop_cond "+" (.bin_op "+") = .ok true :=
  ⟨rfl, rfl, rfl, rfl,
   c4_pop_rule_and_right_assoc_pow.1 "**" "R" 9 9 (.bin_op "**") rfl rfl rfl rfl,
   by rfl, by rfl⟩

/-! ## Claim C5 -/

/-- The number-kind literal value of the counterexample: a double quote,
then `abc`, then a single quote (both ends are quote characters, but they
do not match). -/
def c5val : String := String.mk ['"', 'a', 'b', 'c', sq]

def isQuoteCh (c : Char) : Bool := c = '"' || c = sq

/-- Modelled from the spec (the coercion policy exactly as claim C5 words
it, for comparison with the evaluator): the quote-stripping step demands a
value bounded by *matching* quote characters; anything else falls through
to float parsing. -/
def claimedLitCoercion (v : String) : Except Err Value :=
  if lowerAscii v = "true" then .ok (.num 1)
  else if lowerAscii v = "false" then .ok (.num 0)
  else
    match v.toList with
    | c :: rest =>
      let lastC := (c :: rest).getLastD c
      if isQuoteCh c && c = lastC then
        .ok (.str (String.mk rest.dropLast))
      else
        (match pyFloatOfString v with
         | some f => .ok (pyFloatToValue f)
         | none => .error (.valueError ("could not convert string to float: " ++ v)))
    | [] =>
      (match pyFloatOfString v with
       | some f => .ok (pyFloatToValue f)
       | none => .error (.valueError ("could not convert string to float: " ++ v)))

/-- C5 counterexample: on the mismatched-quotes value `"abc'` the
evaluator strips the two quote characters and returns the string `abc`,
while the claimed policy (matching quotes required) would fall through to
float parsing and fail. -/
theorem c5_counterexample :
    evaluate (.lit (.str c5val)) emptyEnv = .ok (.str "abc") ∧
    claimedLitCoercion c5val =
      .error (.valueError ("could not convert string to float: " ++ c5val)) ∧
    evaluate (.lit (.str c5val)) emptyEnv ≠ claimedLitCoercion c5val := by
  refine ⟨by with_unfolding_all rfl, by with_unfolding_all rfl, ?_⟩
  intro hcontra
  have h1 : evaluate (.lit (.str c5val)) emptyEnv = .ok (.str "abc") := by
    with_unfolding_all rfl
  have h2 : claimedLitCoercion c5val =
      .error (.valueError ("could not convert string to float: " ++ c5val)) := by
    with_unfolding_all rfl
  rw [h1, h2] at hcontra
  exact Except.noConfusion hcontra

/-- C5 (amended): the coercion order of a string-valued number literal is
`true`/`false` (case-insensitive) first, then the quote check — which
passes whenever the first and the last character are each quote
characters, matching or not, a single quote character alone included, and
IndexErrors on the empty value — and only then Python float parsing
(which also accepts the `inf`/`infinity`/`nan` words and underscores
between digits, returning the nonfinite float values), failing with a
ValueError exactly on non-numeric text.  The float-fallback conjunct is
stated over ASCII values, the declared modelling convention. -/
theorem c5_amended_policy :
    (∀ (v : String) (env : String → Option Value), lowerAscii v = "true" →
       evaluate (.lit (.str v)) env = .ok (.num 1)) ∧
    (∀ (v : String) (env : String → Option Value), lowerAscii v = "false" →
       evaluate (.lit (.str v)) env = .ok (.num 0)) ∧
    (∀ env, evaluate (.lit (.str "")) env = .error .indexError) ∧
    (∀ (c lastC : Char) (mid : List Char) (env : String → Option Value),
       isQuoteCh c = true → isQuoteCh lastC = true →
       lowerAscii (String.mk (c :: mid ++ [lastC])) ≠ "true" →
       lowerAscii (String.mk (c :: mid ++ [lastC])) ≠ "false" →
       evaluate (.lit (.str (String.mk (c :: mid ++ [lastC])))) env =
         .ok (.str (String.mk mid))) ∧
    (∀ env, evaluate (.lit (.str (String.mk ['"']))) env = .ok (.str "")) ∧
    (∀ env, evaluate (.lit (.str (String.mk [sq]))) env = .ok (.str "")) ∧
    (∀ (v : String) (env : String → Option Value),
       lowerAscii v ≠ "true" → lowerAscii v ≠ "false" → v.toList ≠ [] →
       (isQuoteCh (v.toList.headD ' ') && isQuoteCh (v.toList.getLastD ' ')) = false →
       (v.toList.all (fun c => c.toNat < 128)) = true →
       evaluate (.lit (.str v)) env =
         (match pyFloatOfString v with
          | some f => .ok (pyFloatToValue f)
          | none => .error (.valueError ("could not convert string to float: " ++ v)))) ∧
    (∀ env, evaluate (.lit (.str "inf")) env = .ok (.inf false)) ∧
    (∀ env, evaluate (.lit (.str " -Infinity ")) env = .ok (.inf true)) ∧
    (∀ env, evaluate (.lit (.str "NaN")) env = .ok .nan) ∧
    (∀ env, evaluate (.lit (.str "1_0.5")) env = .ok (.num (21 / 2))) := by
  have hEval : ∀ (v : String) (env : String → Option Value),
      evaluate (.lit (.str v)) env = evalNumLitStr v := by
    intro v env
    rfl
  refine ⟨?_, ?_, ?_, ?_, ?_, ?_, ?_, ?_, ?_, ?_, ?_⟩
  · intro v env h
    rw [hEval]
    unfold evalNumLitStr
    rw [h]
    rfl
  · intro v env h
    rw [hEval]
    unfold evalNumLitStr
    rw [h]
    by_cases ht : ("false" : String) = "true"
    · exact absurd ht (by decide)
    · simp [ht]
  · intro env
    rfl
  · intro c lastC mid env hc hl h1 h2
    rw [hEval]
    unfold evalNumLitStr
    rw [if_neg h1, if_neg h2]
    have hlist : (String.mk (c :: mid ++ [lastC])).toList = c :: (mid ++ [lastC]) := rfl
    have hlast : (c :: (mid ++ [lastC])).getLastD c = lastC := by
      rw [← List.cons_append]
      exact List.getLastD_concat _ _ _
    have hdrop : (mid ++ [lastC]).dropLast = mid := List.dropLast_concat ..
    simp only [hlist, hlast, hdrop]
    simp only [isQuoteCh] at hc hl
    simp [hc, hl]
  · intro env
    rw [hEval]
    rfl
  · intro env
    rw [hEval]
    rfl
  · intro v env h1 h2 hne hq _hascii
    rw [hEval]
    unfold evalNumLitStr
    rw [if_neg h1, if_neg h2]
    cases hcs : v.toList with
    | nil => exact absurd hcs hne
    | cons c rest =>
      have hhead : v.toList.headD ' ' = c := by rw [hcs]; rfl
      have hgl : v.toList.getLastD ' ' = (c :: rest).getLastD c := by rw [hcs]; rfl
      rw [hhead, hgl] at hq
      simp only [isQuoteCh] at hq
      have hcond : ¬(((c = '"' || c = sq) &&
          ((c :: rest).getLastD c = '"' || (c :: rest).getLastD c = sq)) = true) := by
        intro hcontra
        rw [hq] at hcontra
        exact Bool.false_ne_true hcontra
      dsimp only
      rw [if_neg hcond]
  · intro env
    with_unfolding_all rfl
  · intro env
    with_unfolding_all rfl
  · intro env
    with_unfolding_all rfl
  · intro env
    with_unfolding_all rfl

/-- C5 witness: the amended policy applied at concrete values of each
kind. -/
theorem c5_witness :
    evaluate (.lit (.str "TRUE")) emptyEnv = .ok (.num 1) ∧
    evaluate (.lit (.str "False")) emptyEnv = .ok (.num 0) ∧
    evaluate (.lit (.str (String.mk ['"', 'x', 'y', sq]))) emptyEnv = .ok (.str "xy") ∧
    evaluate (.lit (.str "2.5")) emptyEnv = .ok (.num (5 / 2)) := by
  refine ⟨c5_amended_policy.1 "TRUE" emptyEnv (by rfl),
          c5_amended_policy.2.1 "False" emptyEnv (by rfl), ?_, ?_⟩
  · have h := c5_amended_policy.2.2.2.1 '"' sq ['x', 'y'] emptyEnv
      (by rfl) (by rfl) (by decide) (by decide)
    exact h
  · have h := c5_amended_policy.2.2.2.2.2.2.1 "2.5" emptyEnv
      (by decide) (by decide) (by decide) (by rfl) (by decide)
    rw [h]
    with_unfolding_all rfl

/-! ## Claim C6 -/

/-- C6 counterexample: `2023-13-01` passes the ISO pattern (two arbitrary
month digits) but is no calendar date, so `datetime.fromisoformat` raises
and the converter propagates a ValueError instead of pushing a date
Literal or dropping the token. -/
theorem c6_counterexample :
    is_iso_date_string "2023-13-01" = true ∧
    shunting_yard ["d\"2023-13-01\""] =
      .error (.valueError "Invalid ISO date string: 2023-13-01") ∧
    parse_to_tree "d\"2023-13-01\"" =
      .error (.valueError "Invalid ISO date string: 2023-13-01") := by
  refine ⟨?_, ?_, ?_⟩ <;> with_unfolding_all rfl

/-- C6 (amended): a date-literal token whose content unescapes cleanly
but fails the ISO pattern leaves the whole converter state untouched
(nothing appended, no error); one whose content passes the pattern has
ISO parsing attempted — the parsed date Literal is appended when the
content denotes a valid date/time, and a ValueError is raised when it
does not; and a token whose escape sequences are malformed (a truncated
`\x`/`\u`/`\U` escape or a trailing lone backslash) propagates the
unicode-escape decoding error instead of being dropped. -/
theorem c6_date_literal_handling :
    (∀ (t : String) (st : SYState) (sv : String),
       (dateBounded t '"' || dateBounded t sq) = true →
       unescape_string_literal (strip2 t) = .ok sv →
       is_iso_date_string sv = false →
       syStep st t = .ok st) ∧
    (∀ (t : String) (st : SYState) (sv : String) (d : PyDateTime),
       (dateBounded t '"' || dateBounded t sq) = true →
       unescape_string_literal (strip2 t) = .ok sv →
       is_iso_date_string sv = true →
       fromisoformat sv = some d →
       syStep st t = .ok { st with output := st.output ++ [.lit_date d] }) ∧
    (∀ (t : String) (st : SYState) (sv : String),
       (dateBounded t '"' || dateBounded t sq) = true →
       unescape_string_literal (strip2 t) = .ok sv →
       is_iso_date_string sv = true →
       fromisoformat sv = none →
       syStep st t =
         .error (.valueError ("Invalid ISO date string: " ++ sv))) ∧
    (∀ (t : String) (st : SYState) (m : String),
       (dateBounded t '"' || dateBounded t sq) = true →
       unescape_string_literal (strip2 t) = .error (.unicodeDecodeError m) →
       syStep st t = .error (.unicodeDecodeError m)) := by
  refine ⟨?_, ?_, ?_, ?_⟩
  · intro t st sv h hun hiso
    obtain ⟨q, rest, hcs, _⟩ := dateTok_shape h
    have hnum := is_number_false_of_d hcs
    have hbb := boundedBy_false_of_d hcs
    unfold syStep
    simp [hnum, hbb, h, hun, hiso, Bind.bind, Except.bind]
  · intro t st sv d h hun hiso hfrom
    obtain ⟨q, rest, hcs, _⟩ := dateTok_shape h
    have hnum := is_number_false_of_d hcs
    have hbb := boundedBy_false_of_d hcs
    unfold syStep
    simp [hnum, hbb, h, hun, hiso, parse_iso_date_string, hfrom, Bind.bind, Except.bind]
  · intro t st sv h hun hiso hfrom
    obtain ⟨q, rest, hcs, _⟩ := dateTok_shape h
    have hnum := is_number_false_of_d hcs
    have hbb := boundedBy_false_of_d hcs
    unfold syStep
    simp [hnum, hbb, h, hun, hiso, parse_iso_date_string, hfrom, Bind.bind, Except.bind]
  · intro t st m h hun
    obtain ⟨q, rest, hcs, _⟩ := dateTok_shape h
    have hnum := is_number_false_of_d hcs
    have hbb := boundedBy_false_of_d hcs
    unfold syStep
    simp [hnum, hbb, h, hun, Bind.bind, Except.bind]

/-- C6 witness: the four branches of the amended statement at concrete
tokens (pattern failure dropped, valid date pushed, calendar-invalid date
raising, truncated escape raising). -/
theorem c6_witness :
    syStep SYState.init "d\"xx\"" = .ok SYState.init ∧
    syStep SYState.init "d\"2023-01-01\"" =
      .ok { SYState.init with
            output := SYState.init.output ++ [.lit_date ⟨2023, 1, 1, 0, 0, 0, 0, none⟩] } ∧
    syStep SYState.init "d\"2023-13-01\"" =
      .error (.valueError ("Invalid ISO date string: " ++ "2023-13-01")) ∧
    syStep SYState.init "d\"\\xzz\"" = .error (.unicodeDecodeError truncXMsg) := by
  refine ⟨c6_date_literal_handling.1 "d\"xx\"" SYState.init "xx" (by rfl) (by rfl) (by rfl),
          c6_date_literal_handling.2.1 "d\"2023-01-01\"" SYState.init "2023-01-01"
            ⟨2023, 1, 1, 0, 0, 0, 0, none⟩ (by rfl) (by rfl) (by rfl) (by rfl),
          c6_date_literal_handling.2.2.1 "d\"2023-13-01\"" SYState.init "2023-13-01"
            (by rfl) (by rfl) (by rfl) (by rfl),
          c6_date_literal_handling.2.2.2 "d\"\\xzz\"" SYState.init truncXMsg
            (by rfl) (by rfl)⟩

/-! ## Claim C7 -/

/-- C7: evaluating a binary node evaluates the left operand, then the
right, before the operator is applied — with no short-circuiting: a
failing right operand fails the whole `and`/`or` node even when the left
operand alone would decide the result. -/
theorem c7_no_short_circuit :
    (∀ (name : String) (l r : Ast) (env : String → Option Value) (e : Err),
       evalAst env l = .error e → evalAst env (.bin_op name l r) = .error e) ∧
    (∀ (name : String) (l r : Ast) (env : String → Option Value) (lv : Value) (e : Err),
       evalAst env l = .ok lv → evalAst env r = .error e →
       evalAst env (.bin_op name l r) = .error e) ∧
    evaluate (.bin_op "or" (.lit (.num 1)) (.id "no_such_name")) emptyEnv =
      .error (.nameError "Undefined identifier: no_such_name") ∧
    evaluate (.bin_op "and" (.lit (.num 0)) (.id "no_such_name")) emptyEnv =
      .error (.nameError "Undefined identifier: no_such_name") := by
  refine ⟨?_, ?_, ?_, ?_⟩
  · intro name l r env e h
    simp [evalAst, h, Bind.bind, Except.bind]
  · intro name l r env lv e h1 h2
    simp [evalAst, h1, h2, Bind.bind, Except.bind]
  · with_unfolding_all rfl
  · with_unfolding_all rfl

/-- C7 witness: the theorem applied to `or` with a truthy left operand
and an unbound identifier on the right. -/
theorem c7_witness :
    evalAst emptyEnv (.lit (.num 1)) = .ok (.num 1) ∧
    evalAst emptyEnv (.id "zz") = .error (.nameError "Undefined identifier: zz") ∧
    evalAst emptyEnv (.bin_op "or" (.lit (.num 1)) (.id "zz")) =
      .error (.nameError "Undefined identifier: zz") :=
  ⟨by with_unfolding_all rfl, by with_unfolding_all rfl,
   c7_no_short_circuit.2.1 "or" (.lit (.num 1)) (.id "zz") emptyEnv (.num 1)
     (.nameError "Undefined identifier: zz")
     (by with_unfolding_all rfl) (by with_unfolding_all rfl)⟩

/-! ## Claim C8 -/

/-- C8: identifier evaluation looks the name up in the merged
environment — caller bindings first, the builtin catalog as fallback —
and fails with the undefined-identifier NameError exactly when the name
is bound in neither; a caller binding shadows a builtin of the same
name. -/
theorem c8_identifier_lookup :
    (∀ (name : String) (env : String → Option Value),
       evaluate (.id name) env =
         (match env name with
          | some v => .ok v
          | none =>
            match dictGet builtin_env name with
            | some v => .ok v
            | none => .error (.nameError ("Undefined identifier: " ++ name)))) ∧
    evaluate (.id "pi") (fun n => if n = "pi" then some (.num 3) else none) =
      .ok (.num 3) ∧
    evaluate (.id "sqrt") emptyEnv = .ok (.builtin "sqrt") ∧
    evaluate (.id "no_such_name") emptyEnv =
      .error (.nameError "Undefined identifier: no_such_name") := by
  refine ⟨?_, ?_, ?_, ?_⟩
  · intro name env
    unfold evaluate
    simp only [evalAst]
    cases h : env name with
    | some v => simp [h]
    | none =>
      cases hb : dictGet builtin_env name with
      | some v => simp [h, hb]
      | none => simp [h, hb]
  · rfl
  · rfl
  · rfl

/-! ## Claim C9 -/

/-- C9: whenever parsing a token stream succeeds, the builder consumed the
whole RPN sequence ending with exactly the returned root on its working
stack (it fails whenever that stack ends with any other length); and a
`Call` or `ListLiteral` marker that the builder processes successfully
yields a node whose children sequence has exactly the recorded
argument/element count (the children being the popped stack prefix in
restored order). -/
theorem c9_single_root_and_counts :
    (∀ (tokens : List String) (t : Ast),
       parse_tokens tokens = .ok t →
       ∃ rpn, shunting_yard tokens = .ok rpn ∧
         rpn.foldlM build_step [] = .ok [t] ∧ build_tree rpn = .ok t) ∧
    (∀ (rpn : List RTok) (stack : List Ast),
       rpn.foldlM build_step [] = .ok stack → stack.length ≠ 1 →
       build_tree rpn = .error (.valueError malformedMsg)) ∧
    (∀ (name : String) (n : Nat) (stack out : List Ast),
       build_step stack (.fn name (some n)) = .ok out →
       ∃ args, out = .fn name args :: stack.drop n ∧ args.length = n ∧
         args = (stack.take n).reverse) ∧
    (∀ (n : Nat) (stack out : List Ast),
       build_step stack (.list n) = .ok out →
       ∃ elems, out = .list elems :: stack.drop n ∧ elems.length = n ∧
         elems = (stack.take n).reverse) := by
  refine ⟨?_, ?_, ?_, ?_⟩
  · intro tokens t h
    unfold parse_tokens at h
    cases hb : check_parentheses_balance tokens with
    | error e => rw [hb] at h; simp [Bind.bind, Except.bind] at h
    | ok u =>
      rw [hb] at h
      cases hs : shunting_yard tokens with
      | error e => rw [hs] at h; simp [Bind.bind, Except.bind] at h
      | ok rpn =>
        rw [hs] at h
        simp only [Bind.bind, Except.bind] at h
        refine ⟨rpn, rfl, ?_, h⟩
        unfold build_tree at h
        cases hf : rpn.foldlM build_step [] with
        | error e => rw [hf] at h; simp [Bind.bind, Except.bind] at h
        | ok stack =>
          rw [hf] at h
          simp only [Bind.bind, Except.bind] at h
          cases stack with
          | nil => simp at h
          | cons a tail =>
            cases tail with
            | nil =>
              simp only [Except.ok.injEq] at h
              rw [h]
            | cons b tail2 => simp at h
  · intro rpn stack hf hlen
    unfold build_tree
    rw [hf]
    simp only [Bind.bind, Except.bind]
    cases stack with
    | nil => rfl
    | cons a tail =>
      cases tail with
      | nil => exact absurd rfl hlen
      | cons b tail2 => rfl
  · intro name n stack out h
    simp only [build_step] at h
    cases hp : popN n stack with
    | error e => rw [hp] at h; simp [Bind.bind, Except.bind] at h
    | ok pr =>
      obtain ⟨popped, rest⟩ := pr
      rw [hp] at h
      simp only [Bind.bind, Except.bind, Except.ok.injEq] at h
      obtain ⟨e1, e2, e3⟩ := popN_ok hp
      exact ⟨popped.reverse, by rw [← h, e2], by rw [List.length_reverse]; exact e3,
             by rw [e1]⟩
  · intro n stack out h
    simp only [build_step] at h
    cases hp : popN n stack with
    | error e => rw [hp] at h; simp [Bind.bind, Except.bind] at h
    | ok pr =>
      obtain ⟨popped, rest⟩ := pr
      rw [hp] at h
      simp only [Bind.bind, Except.bind, Except.ok.injEq] at h
      obtain ⟨e1, e2, e3⟩ := popN_ok hp
      exact ⟨popped.reverse, by rw [← h, e2], by rw [List.length_reverse]; exact e3,
             by rw [e1]⟩

/-- C9 witness: the single-root part applied to the token stream of
`1 + 2`, and the count parts applied to a two-argument call marker and a
two-element list marker over a three-entry stack. -/
theorem c9_witness :
    (∃ rpn, shunting_yard ["1", "+", "2"] = .ok rpn ∧
       rpn.foldlM build_step [] = .ok [Ast.bin_op "+" (.lit (.num 1)) (.lit (.num 2))] ∧
       build_tree rpn = .ok (Ast.bin_op "+" (.lit (.num 1)) (.lit (.num 2)))) ∧
    (∃ args, (Ast.fn "f" [.id "y", .id "x"] :: [Ast.id "z"] : List Ast) =
       .fn "f" args :: ([Ast.id "x", Ast.id "y", Ast.id "z"] : List Ast).drop 2 ∧
       args.length = 2 ∧
       args = (([Ast.id "x", Ast.id "y", Ast.id "z"] : List Ast).take 2).reverse) ∧
    (∃ elems, (Ast.list [.id "y", .id "x"] :: [Ast.id "z"] : List Ast) =
       .list elems :: ([Ast.id "x", Ast.id "y", Ast.id "z"] : List Ast).drop 2 ∧
       elems.length = 2 ∧
       elems = (([Ast.id "x", Ast.id "y", Ast.id "z"] : List Ast).take 2).reverse) :=
  ⟨c9_single_root_and_counts.1 ["1", "+", "2"]
     (Ast.bin_op "+" (.lit (.num 1)) (.lit (.num 2))) (by with_unfolding_all rfl),
   c9_single_root_and_counts.2.2.1 "f" 2 [Ast.id "x", Ast.id "y", Ast.id "z"]
     (Ast.fn "f" [.id "y", .id "x"] :: [Ast.id "z"]) (by with_unfolding_all rfl),
   c9_single_root_and_counts.2.2.2 2 [Ast.id "x", Ast.id "y", Ast.id "z"]
     (Ast.list [.id "y", .id "x"] :: [Ast.id "z"]) (by with_unfolding_all rfl)⟩

/-! ## Claim C10 -/

/-- C10: on the empty string and on every whitespace-only input the token
regex never matches, so `tokenize` filters everything away and returns no
tokens, and `parse_to_tree` — building from an empty RPN queue — ends
with an empty working stack and raises the malformed-expression syntax
error; no AST or default value is produced. -/
theorem c10_blank_input :
    ∀ (s : String), (∀ c ∈ s.toList, isSpaceCh c = true) →
      tokenize s = [] ∧ parse_to_tree s = .error (.valueError malformedMsg) := by
  intro s h
  have hf : findFrom none [] s.toList = none := findFrom_allspace none [] h
  have hsp : splitPieces (s.toList.length + 1) none s.toList [] = [String.mk s.toList] := by
    unfold splitPieces
    rw [hf]
    rfl
  have hany : ((String.mk s.toList).toList.any fun c => !isSpaceCh c) = false := by
    refine List.any_eq_false.mpr ?_
    intro c hc
    simp [h c hc]
  have ht : tokenize s = [] := by
    unfold tokenize
    dsimp only
    rw [hsp]
    simp only [List.filter]
    rw [hany]
  refine ⟨ht, ?_⟩
  unfold parse_to_tree
  rw [ht]
  rfl

/-- C10 witness: the theorem applied to the empty string and to a
space-only string. -/
theorem c10_witness :
    tokenize "" = [] ∧ parse_to_tree "" = .error (.valueError malformedMsg) ∧
    tokenize " " = [] ∧ parse_to_tree " " = .error (.valueError malformedMsg) :=
  ⟨(c10_blank_input "" (by decide)).1, (c10_blank_input "" (by decide)).2,
   (c10_blank_input " " (by decide)).1, (c10_blank_input " " (by decide)).2⟩

end Terminus
